import Mathlib

/-!
Shallow embedding of the gcp-iam-test diagnostic script (main.go) and proofs
about the claims of its specification.

Conventions used throughout:
 - Go string concatenation is modelled by String append.
 - Go slices of pointers to bindings are modelled by lists of binding values;
   the in-place mutation through the pointer returned by collapseBindings is
   rendered as a pure update of the first binding whose role matches.
 - Fallible Go calls returning (T, error) are modelled as Except GoError T.
 - A nil Go pointer is modelled as Option.none; dereferencing it is a runtime
   panic, modelled explicitly where the claims depend on it.
 - The constants named with the suffix Pre correspond to the Go constants
   whose names end in the word P-r-e-f-i-x (roleResourcePre is the Go
   constant roleResourcePrefix, and so on).
-/

/-- Errors returned by the modelled external calls. The Go code never inspects
an error beyond logging it, so an abstract enumeration suffices. -/
inductive GoError where
  | fileReadError
  | jsonDecodeError
  | forbidden
  | badRequest
  | apiFailure
deriving Repr, DecidableEq

/-- True exactly when an Except value is an error, mirroring the Go idiom
err != nil. -/
def isErr {α : Type} : Except GoError α → Bool
  | .error _ => true
  | .ok _ => false

/-- The successful value of an Except, none on error; mirrors the Go pattern
of a result pointer that is nil when err != nil. -/
def exceptToOption {α : Type} : Except GoError α → Option α
  | .error _ => none
  | .ok a => some a

-- Constants from main.go lines 17-31.

/-- Go constant testSubscriptionName (main.go line 22). -/
def testSubscriptionName : String := "test-sub"

/-- Go constant testServiceAccountName (main.go line 23). -/
def testServiceAccountName : String := "test-sa"

/-- Go constant roleResourcePrefix (main.go line 25). -/
def roleResourcePre : String := "roles/"

/-- Go constant projectResourcePrefix (main.go line 26). -/
def projectResourcePre : String := "projects/"

/-- Go constant pubsubRolePrefix (main.go line 27). -/
def pubsubRolePre : String := "pubsub."

/-- Go constant topicPrefix (main.go line 28). -/
def topicPre : String := "topics/"

/-- Go constant subscriptionPrefix (main.go line 29). -/
def subscriptionPre : String := "subscriptions/"

/-- Go constant saBindingPrefix (main.go line 30). -/
def saBindingPre : String := "serviceAccount:"

/-- The JWT struct (main.go lines 33-44): the field-level representation of a
provider-issued JSON credential document. -/
structure JWT where
  type : String
  projectID : String
  privateKeyID : String
  privateKey : String
  clientEmail : String
  clientID : String
  authURI : String
  tokenURI : String
  authProviderX509CertURL : String
  clientX509CertURL : String
deriving Repr, DecidableEq

/-- Contents of a file as seen by the credential loader: either not valid JSON
for the credential document shape, or a well-formed credential document carrying
the ten fields of the JWT struct. The JSON decoder itself (encoding/json) is
external library code and is modelled abstractly by this dichotomy. -/
inductive FileContent where
  | malformed
  | credentialDoc (type projectID privateKeyID privateKey clientEmail clientID
      authURI tokenURI authProviderX509CertURL clientX509CertURL : String)
deriving Repr, DecidableEq

/-- jwtFromFile (main.go lines 46-58): read the file (error when absent), then
decode the JSON (error when malformed), otherwise return the populated JWT
record. The file system is passed explicitly as a map from paths to contents,
none meaning the read fails. -/
def jwtFromFile (fs : String → Option FileContent) (filePath : String) :
    Except GoError JWT :=
  match fs filePath with
  | none => .error .fileReadError
  | some .malformed => .error .jsonDecodeError
  | some (.credentialDoc t pid pkid pk ce ci au tu ap cc) =>
      .ok ⟨t, pid, pkid, pk, ce, ci, au, tu, ap, cc⟩

/-- topicResourceName (main.go lines 60-62). -/
def topicResourceName (projectID : String) (topicName : String) : String :=
  projectResourcePre ++ projectID ++ "/" ++ topicPre ++ topicName

/-- subscriptionResourceName (main.go lines 75-77). -/
def subscriptionResourceName (projectID : String) (subscriptionName : String) :
    String :=
  projectResourcePre ++ projectID ++ "/" ++ subscriptionPre ++ subscriptionName

/-- The iam.ServiceAccount fields used by the script: Name (resource name,
used by delete and key creation) and Email (used in policy bindings). -/
structure ServiceAccount where
  name : String
  email : String
  displayName : String
deriving Repr, DecidableEq

/-- The pubsub.Topic fields used by the script: Name. -/
structure Topic where
  name : String
deriving Repr, DecidableEq

/-- The pubsub.Subscription fields used by the script: Name and Topic. -/
structure Subscription where
  name : String
  topic : String
deriving Repr, DecidableEq

/-- The iam.ServiceAccountKey fields used by the script: PrivateKeyData, a
base64 string. -/
structure SAKey where
  privateKeyData : String
deriving Repr, DecidableEq

/-- A cloudresourcemanager Binding: the fields used are Members and Role
(in that order in the Go literal at main.go lines 155-158). -/
structure CloudresBinding where
  members : List String
  role : String
deriving Repr, DecidableEq

/-- A cloudresourcemanager Policy: the field used is Bindings. -/
structure CloudresPolicy where
  bindings : List CloudresBinding
deriving Repr, DecidableEq

/-- A pubsub Binding: the fields used are Members and Role (main.go
lines 139-142). -/
structure PubsubBinding where
  members : List String
  role : String
deriving Repr, DecidableEq

/-- A pubsub Policy: the field used is Bindings. -/
structure PubsubPolicy where
  bindings : List PubsubBinding
deriving Repr, DecidableEq

/-- collapseBindings (main.go lines 112-120): return the first binding whose
Role equals roleResourcePrefix + role, none when there is no such binding.
The Go function returns a pointer into the slice; here the found value is
returned and the in-place mutation through that pointer is rendered by
appendMemberToFirstBinding below. -/
def collapseBindings (bindings : List CloudresBinding) (role : String) :
    Option CloudresBinding :=
  bindings.find? (fun binding => binding.role == roleResourcePre ++ role)

/-- collapsePubsubBindings (main.go lines 122-130): same loop over pubsub
bindings. -/
def collapsePubsubBindings (bindings : List PubsubBinding) (role : String) :
    Option PubsubBinding :=
  bindings.find? (fun binding => binding.role == roleResourcePre ++ role)

/-- Pure rendering of the Go statement binding.Members = append(binding.Members,
member) where binding is the pointer returned by collapseBindings: the first
binding whose role matches gets the member appended, all other bindings are
unchanged. -/
def appendMemberToFirstBinding (bindings : List CloudresBinding) (role : String)
    (member : String) : List CloudresBinding :=
  match bindings with
  | [] => []
  | b :: rest =>
      if b.role == roleResourcePre ++ role then
        { b with members := b.members ++ [member] } :: rest
      else
        b :: appendMemberToFirstBinding rest role member

/-- Pubsub counterpart of appendMemberToFirstBinding, for
addMemberToPubSubPolicy. -/
def appendMemberToFirstPubsubBinding (bindings : List PubsubBinding)
    (role : String) (member : String) : List PubsubBinding :=
  match bindings with
  | [] => []
  | b :: rest =>
      if b.role == roleResourcePre ++ role then
        { b with members := b.members ++ [member] } :: rest
      else
        b :: appendMemberToFirstPubsubBinding rest role member

/-- addMemberToPolicy (main.go lines 148-162): when collapseBindings finds a
binding for the role, append serviceAccount:email to its member list (the Go
code mutates through the returned pointer, rendered here as the first-match
update); otherwise append a fresh binding holding exactly that one member. -/
def addMemberToPolicy (policy : CloudresPolicy) (sa : ServiceAccount)
    (role : String) : CloudresPolicy :=
  match collapseBindings policy.bindings role with
  | some _ =>
      { policy with
          bindings := appendMemberToFirstBinding policy.bindings role
            (saBindingPre ++ sa.email) }
  | none =>
      { policy with
          bindings := policy.bindings ++
            [{ members := [saBindingPre ++ sa.email],
               role := roleResourcePre ++ role }] }

/-- addMemberToPubSubPolicy (main.go lines 132-146): identical logic on the
pubsub policy type. -/
def addMemberToPubSubPolicy (policy : PubsubPolicy) (sa : ServiceAccount)
    (role : String) : PubsubPolicy :=
  match collapsePubsubBindings policy.bindings role with
  | some _ =>
      { policy with
          bindings := appendMemberToFirstPubsubBinding policy.bindings role
            (saBindingPre ++ sa.email) }
  | none =>
      { policy with
          bindings := policy.bindings ++
            [{ members := [saBindingPre ++ sa.email],
               role := roleResourcePre ++ role }] }

-- Helper lemmas about the binding-merge functions.

lemma exists_first_cloudres_decomp (l : List CloudresBinding) (role : String)
    (h : ∃ b ∈ l, b.role = roleResourcePre ++ role) :
    ∃ pre b post, l = pre ++ b :: post ∧ b.role = roleResourcePre ++ role ∧
      ∀ b2 ∈ pre, b2.role ≠ roleResourcePre ++ role := by
  induction l with
  | nil => simp at h
  | cons hd tl ih =>
      by_cases hhd : hd.role = roleResourcePre ++ role
      · exact ⟨[], hd, tl, by simp, hhd, by simp⟩
      · obtain ⟨b, hb, hrole⟩ := h
        rcases List.mem_cons.mp hb with rfl | hbtl
        · exact absurd hrole hhd
        · obtain ⟨pre, b0, post, heq, hrole0, hpre⟩ := ih ⟨b, hbtl, hrole⟩
          refine ⟨hd :: pre, b0, post, by simp [heq], hrole0, ?_⟩
          intro b2 hb2
          rcases List.mem_cons.mp hb2 with rfl | hb2pre
          · exact hhd
          · exact hpre b2 hb2pre

lemma exists_first_pubsub_decomp (l : List PubsubBinding) (role : String)
    (h : ∃ b ∈ l, b.role = roleResourcePre ++ role) :
    ∃ pre b post, l = pre ++ b :: post ∧ b.role = roleResourcePre ++ role ∧
      ∀ b2 ∈ pre, b2.role ≠ roleResourcePre ++ role := by
  induction l with
  | nil => simp at h
  | cons hd tl ih =>
      by_cases hhd : hd.role = roleResourcePre ++ role
      · exact ⟨[], hd, tl, by simp, hhd, by simp⟩
      · obtain ⟨b, hb, hrole⟩ := h
        rcases List.mem_cons.mp hb with rfl | hbtl
        · exact absurd hrole hhd
        · obtain ⟨pre, b0, post, heq, hrole0, hpre⟩ := ih ⟨b, hbtl, hrole⟩
          refine ⟨hd :: pre, b0, post, by simp [heq], hrole0, ?_⟩
          intro b2 hb2
          rcases List.mem_cons.mp hb2 with rfl | hb2pre
          · exact hhd
          · exact hpre b2 hb2pre

lemma appendMemberToFirstBinding_eq (pre : List CloudresBinding)
    (b : CloudresBinding) (post : List CloudresBinding) (role m : String)
    (hpre : ∀ b2 ∈ pre, b2.role ≠ roleResourcePre ++ role)
    (hb : b.role = roleResourcePre ++ role) :
    appendMemberToFirstBinding (pre ++ b :: post) role m =
      pre ++ { b with members := b.members ++ [m] } :: post := by
  induction pre with
  | nil => simp [appendMemberToFirstBinding, hb]
  | cons hd tl ih =>
      have hhd : hd.role ≠ roleResourcePre ++ role := hpre hd (by simp)
      have htl : ∀ b2 ∈ tl, b2.role ≠ roleResourcePre ++ role :=
        fun b2 h2 => hpre b2 (by simp [h2])
      simp [appendMemberToFirstBinding, hhd, ih htl]

lemma appendMemberToFirstPubsubBinding_eq (pre : List PubsubBinding)
    (b : PubsubBinding) (post : List PubsubBinding) (role m : String)
    (hpre : ∀ b2 ∈ pre, b2.role ≠ roleResourcePre ++ role)
    (hb : b.role = roleResourcePre ++ role) :
    appendMemberToFirstPubsubBinding (pre ++ b :: post) role m =
      pre ++ { b with members := b.members ++ [m] } :: post := by
  induction pre with
  | nil => simp [appendMemberToFirstPubsubBinding, hb]
  | cons hd tl ih =>
      have hhd : hd.role ≠ roleResourcePre ++ role := hpre hd (by simp)
      have htl : ∀ b2 ∈ tl, b2.role ≠ roleResourcePre ++ role :=
        fun b2 h2 => hpre b2 (by simp [h2])
      simp [appendMemberToFirstPubsubBinding, hhd, ih htl]

lemma addMemberToPolicy_found (p : CloudresPolicy) (sa : ServiceAccount)
    (role : String) (h : ∃ b ∈ p.bindings, b.role = roleResourcePre ++ role) :
    (addMemberToPolicy p sa role).bindings =
      appendMemberToFirstBinding p.bindings role (saBindingPre ++ sa.email) := by
  have hsome : (collapseBindings p.bindings role).isSome := by
    unfold collapseBindings
    rw [List.find?_isSome]
    obtain ⟨b, hb, hrole⟩ := h
    exact ⟨b, hb, by simp [hrole]⟩
  cases hc : collapseBindings p.bindings role with
  | none => rw [hc] at hsome; simp at hsome
  | some b0 => simp [addMemberToPolicy, hc]

lemma addMemberToPubSubPolicy_found (p : PubsubPolicy) (sa : ServiceAccount)
    (role : String) (h : ∃ b ∈ p.bindings, b.role = roleResourcePre ++ role) :
    (addMemberToPubSubPolicy p sa role).bindings =
      appendMemberToFirstPubsubBinding p.bindings role
        (saBindingPre ++ sa.email) := by
  have hsome : (collapsePubsubBindings p.bindings role).isSome := by
    unfold collapsePubsubBindings
    rw [List.find?_isSome]
    obtain ⟨b, hb, hrole⟩ := h
    exact ⟨b, hb, by simp [hrole]⟩
  cases hc : collapsePubsubBindings p.bindings role with
  | none => rw [hc] at hsome; simp at hsome
  | some b0 => simp [addMemberToPubSubPolicy, hc]

lemma addMemberToPolicy_notFound (p : CloudresPolicy) (sa : ServiceAccount)
    (role : String) (h : ∀ b ∈ p.bindings, b.role ≠ roleResourcePre ++ role) :
    (addMemberToPolicy p sa role).bindings =
      p.bindings ++ [{ members := [saBindingPre ++ sa.email],
                       role := roleResourcePre ++ role }] := by
  have hnone : collapseBindings p.bindings role = none := by
    unfold collapseBindings
    rw [List.find?_eq_none]
    intro b hb
    simpa using h b hb
  simp [addMemberToPolicy, hnone]

lemma addMemberToPubSubPolicy_notFound (p : PubsubPolicy) (sa : ServiceAccount)
    (role : String) (h : ∀ b ∈ p.bindings, b.role ≠ roleResourcePre ++ role) :
    (addMemberToPubSubPolicy p sa role).bindings =
      p.bindings ++ [{ members := [saBindingPre ++ sa.email],
                       role := roleResourcePre ++ role }] := by
  have hnone : collapsePubsubBindings p.bindings role = none := by
    unfold collapsePubsubBindings
    rw [List.find?_eq_none]
    intro b hb
    simpa using h b hb
  simp [addMemberToPubSubPolicy, hnone]

/-- C8: for every project id, topic name and subscription name,
topicResourceName p t is exactly "projects/" ++ p ++ "/topics/" ++ t and
subscriptionResourceName p s is exactly
"projects/" ++ p ++ "/subscriptions/" ++ s. -/
theorem resourceNames_exact (p t s : String) :
    topicResourceName p t = "projects/" ++ p ++ "/topics/" ++ t ∧
    subscriptionResourceName p s = "projects/" ++ p ++ "/subscriptions/" ++ s := by
  constructor
  · simp [topicResourceName, projectResourcePre, topicPre, String.append_assoc]
  · simp [subscriptionResourceName, projectResourcePre, subscriptionPre,
      String.append_assoc]

/-- C6: when no binding of the policy has the prefixed role, addMemberToPolicy
and addMemberToPubSubPolicy leave the existing bindings unchanged and append
exactly one new binding whose role is the prefixed role name and whose member
list is exactly the one new serviceAccount member. -/
theorem addMember_newBinding (p : CloudresPolicy) (pp : PubsubPolicy)
    (sa : ServiceAccount) (role : String)
    (h1 : ∀ b ∈ p.bindings, b.role ≠ roleResourcePre ++ role)
    (h2 : ∀ b ∈ pp.bindings, b.role ≠ roleResourcePre ++ role) :
    (addMemberToPolicy p sa role).bindings =
      p.bindings ++ [{ members := [saBindingPre ++ sa.email],
                       role := roleResourcePre ++ role }] ∧
    (addMemberToPubSubPolicy pp sa role).bindings =
      pp.bindings ++ [{ members := [saBindingPre ++ sa.email],
                        role := roleResourcePre ++ role }] :=
  ⟨addMemberToPolicy_notFound p sa role h1,
   addMemberToPubSubPolicy_notFound pp sa role h2⟩

/-- Witness for addMember_newBinding at a concrete policy with one unrelated
binding. -/
theorem addMember_newBinding_witness :
    (addMemberToPolicy ⟨[⟨["user:a"], "roles/viewer"⟩]⟩
        ⟨"projects/p1/serviceAccounts/test-sa", "sa@p1.example", "test-sa"⟩
        "pubsub.subscriber").bindings =
      [⟨["user:a"], "roles/viewer"⟩,
       ⟨["serviceAccount:sa@p1.example"], "roles/pubsub.subscriber"⟩] ∧
    (addMemberToPubSubPolicy ⟨[]⟩
        ⟨"projects/p1/serviceAccounts/test-sa", "sa@p1.example", "test-sa"⟩
        "pubsub.subscriber").bindings =
      [⟨["serviceAccount:sa@p1.example"], "roles/pubsub.subscriber"⟩] := by
  have h := addMember_newBinding ⟨[⟨["user:a"], "roles/viewer"⟩]⟩ ⟨[]⟩
    ⟨"projects/p1/serviceAccounts/test-sa", "sa@p1.example", "test-sa"⟩
    "pubsub.subscriber" (by decide) (by decide)
  simpa using h

/-- C7: when the policy already has a binding for the prefixed role,
addMemberToPolicy and addMemberToPubSubPolicy append the new serviceAccount
member to the member list of the first such binding and add no second binding
for the role: the number of bindings is unchanged and the result is the same
list with only that binding rewritten. -/
theorem addMember_existingBinding (p : CloudresPolicy) (pp : PubsubPolicy)
    (sa : ServiceAccount) (role : String)
    (h1 : ∃ b ∈ p.bindings, b.role = roleResourcePre ++ role)
    (h2 : ∃ b ∈ pp.bindings, b.role = roleResourcePre ++ role) :
    ((addMemberToPolicy p sa role).bindings.length = p.bindings.length ∧
     ∃ pre b post, p.bindings = pre ++ b :: post ∧
       b.role = roleResourcePre ++ role ∧
       (∀ b2 ∈ pre, b2.role ≠ roleResourcePre ++ role) ∧
       (addMemberToPolicy p sa role).bindings =
         pre ++ { b with members := b.members ++ [saBindingPre ++ sa.email] }
           :: post) ∧
    ((addMemberToPubSubPolicy pp sa role).bindings.length =
        pp.bindings.length ∧
     ∃ pre b post, pp.bindings = pre ++ b :: post ∧
       b.role = roleResourcePre ++ role ∧
       (∀ b2 ∈ pre, b2.role ≠ roleResourcePre ++ role) ∧
       (addMemberToPubSubPolicy pp sa role).bindings =
         pre ++ { b with members := b.members ++ [saBindingPre ++ sa.email] }
           :: post) := by
  obtain ⟨pre, b, post, heq, hrole, hpre⟩ :=
    exists_first_cloudres_decomp p.bindings role h1
  obtain ⟨qre, c, qost, heq2, hrole2, hqre⟩ :=
    exists_first_pubsub_decomp pp.bindings role h2
  have e1 : (addMemberToPolicy p sa role).bindings =
      pre ++ { b with members := b.members ++ [saBindingPre ++ sa.email] }
        :: post := by
    rw [addMemberToPolicy_found p sa role h1, heq]
    exact appendMemberToFirstBinding_eq pre b post role _ hpre hrole
  have e2 : (addMemberToPubSubPolicy pp sa role).bindings =
      qre ++ { c with members := c.members ++ [saBindingPre ++ sa.email] }
        :: qost := by
    rw [addMemberToPubSubPolicy_found pp sa role h2, heq2]
    exact appendMemberToFirstPubsubBinding_eq qre c qost role _ hqre hrole2
  refine ⟨⟨?_, pre, b, post, heq, hrole, hpre, e1⟩,
          ⟨?_, qre, c, qost, heq2, hrole2, hqre, e2⟩⟩
  · rw [e1, heq]; simp
  · rw [e2, heq2]; simp

/-- Witness for addMember_existingBinding at a concrete policy already holding
a binding for the role. -/
theorem addMember_existingBinding_witness :
    (addMemberToPolicy ⟨[⟨["user:a"], "roles/pubsub.subscriber"⟩]⟩
        ⟨"projects/p1/serviceAccounts/test-sa", "sa@p1.example", "test-sa"⟩
        "pubsub.subscriber").bindings.length = 1 ∧
    (addMemberToPubSubPolicy ⟨[⟨["user:b"], "roles/pubsub.subscriber"⟩]⟩
        ⟨"projects/p1/serviceAccounts/test-sa", "sa@p1.example", "test-sa"⟩
        "pubsub.subscriber").bindings.length = 1 := by
  have h := addMember_existingBinding
    ⟨[⟨["user:a"], "roles/pubsub.subscriber"⟩]⟩
    ⟨[⟨["user:b"], "roles/pubsub.subscriber"⟩]⟩
    ⟨"projects/p1/serviceAccounts/test-sa", "sa@p1.example", "test-sa"⟩
    "pubsub.subscriber"
    ⟨⟨["user:a"], "roles/pubsub.subscriber"⟩, by simp, by decide⟩
    ⟨⟨["user:b"], "roles/pubsub.subscriber"⟩, by simp, by decide⟩
  exact ⟨h.1.1, h.2.1⟩

/-- C10: the merge functions are not idempotent in the member list: when the
first binding for the role already lists the serviceAccount member, applying
the function appends the same member string again, so it then occurs at least
twice in that binding. -/
theorem addMember_duplicatesMember (p : CloudresPolicy) (pp : PubsubPolicy)
    (sa : ServiceAccount) (role : String)
    (pre post : List CloudresBinding) (b : CloudresBinding)
    (qre qost : List PubsubBinding) (c : PubsubBinding)
    (hp : p.bindings = pre ++ b :: post)
    (hpre : ∀ b2 ∈ pre, b2.role ≠ roleResourcePre ++ role)
    (hb : b.role = roleResourcePre ++ role)
    (hm : saBindingPre ++ sa.email ∈ b.members)
    (hq : pp.bindings = qre ++ c :: qost)
    (hqre : ∀ b2 ∈ qre, b2.role ≠ roleResourcePre ++ role)
    (hc : c.role = roleResourcePre ++ role)
    (hcm : saBindingPre ++ sa.email ∈ c.members) :
    ((addMemberToPolicy p sa role).bindings =
       pre ++ { b with members := b.members ++ [saBindingPre ++ sa.email] }
         :: post ∧
     2 ≤ (b.members ++ [saBindingPre ++ sa.email]).count
           (saBindingPre ++ sa.email)) ∧
    ((addMemberToPubSubPolicy pp sa role).bindings =
       qre ++ { c with members := c.members ++ [saBindingPre ++ sa.email] }
         :: qost ∧
     2 ≤ (c.members ++ [saBindingPre ++ sa.email]).count
           (saBindingPre ++ sa.email)) := by
  have hex1 : ∃ b2 ∈ p.bindings, b2.role = roleResourcePre ++ role :=
    ⟨b, by rw [hp]; simp, hb⟩
  have hex2 : ∃ b2 ∈ pp.bindings, b2.role = roleResourcePre ++ role :=
    ⟨c, by rw [hq]; simp, hc⟩
  refine ⟨⟨?_, ?_⟩, ⟨?_, ?_⟩⟩
  · rw [addMemberToPolicy_found p sa role hex1, hp]
    exact appendMemberToFirstBinding_eq pre b post role _ hpre hb
  · have h1 : 1 ≤ b.members.count (saBindingPre ++ sa.email) :=
      List.one_le_count_iff.mpr hm
    rw [List.count_append]
    simp only [List.count_singleton, beq_self_eq_true, if_true]
    omega
  · rw [addMemberToPubSubPolicy_found pp sa role hex2, hq]
    exact appendMemberToFirstPubsubBinding_eq qre c qost role _ hqre hc
  · have h1 : 1 ≤ c.members.count (saBindingPre ++ sa.email) :=
      List.one_le_count_iff.mpr hcm
    rw [List.count_append]
    simp only [List.count_singleton, beq_self_eq_true, if_true]
    omega

/-- Witness for addMember_duplicatesMember: granting the same role to the same
service account a second time duplicates the member string. -/
theorem addMember_duplicatesMember_witness :
    (addMemberToPolicy ⟨[⟨["serviceAccount:sa@p1.example"],
        "roles/pubsub.subscriber"⟩]⟩
      ⟨"projects/p1/serviceAccounts/test-sa", "sa@p1.example", "test-sa"⟩
      "pubsub.subscriber").bindings =
    [⟨["serviceAccount:sa@p1.example", "serviceAccount:sa@p1.example"],
      "roles/pubsub.subscriber"⟩] := by
  have h := addMember_duplicatesMember
    ⟨[⟨["serviceAccount:sa@p1.example"], "roles/pubsub.subscriber"⟩]⟩
    ⟨[⟨["serviceAccount:sa@p1.example"], "roles/pubsub.subscriber"⟩]⟩
    ⟨"projects/p1/serviceAccounts/test-sa", "sa@p1.example", "test-sa"⟩
    "pubsub.subscriber"
    [] [] ⟨["serviceAccount:sa@p1.example"], "roles/pubsub.subscriber"⟩
    [] [] ⟨["serviceAccount:sa@p1.example"], "roles/pubsub.subscriber"⟩
    rfl (by simp) (by decide) (by decide)
    rfl (by simp) (by decide) (by decide)
  simpa using h.1.1

/-- C9: jwtFromFile round-trips a readable, well-formed credential document
into the JWT record field by field, and returns an error when the file is
missing or its contents are not well-formed JSON. -/
theorem jwtFromFile_spec (fs : String → Option FileContent) (path : String) :
    (∀ t pid pkid pk ce ci au tu ap cc,
      fs path = some (.credentialDoc t pid pkid pk ce ci au tu ap cc) →
        jwtFromFile fs path = .ok ⟨t, pid, pkid, pk, ce, ci, au, tu, ap, cc⟩) ∧
    (fs path = none → isErr (jwtFromFile fs path) = true) ∧
    (fs path = some .malformed → isErr (jwtFromFile fs path) = true) := by
  refine ⟨?_, ?_, ?_⟩
  · intro t pid pkid pk ce ci au tu ap cc h
    simp [jwtFromFile, h]
  · intro h
    simp [jwtFromFile, h, isErr]
  · intro h
    simp [jwtFromFile, h, isErr]

/-- A small concrete file system for the jwtFromFile witness: one good
credential document, one malformed file, nothing else. -/
def witnessFS : String → Option FileContent := fun path =>
  if path = "good.json" then
    some (.credentialDoc "service_account" "p1" "kid1" "PEM" "sa@p1.example"
      "123" "https://auth.example" "https://token.example"
      "https://certs.example" "https://client-certs.example")
  else if path = "bad.json" then some .malformed
  else none

/-- Witness for jwtFromFile_spec on witnessFS: the good file round-trips, the
missing and malformed files yield errors. -/
theorem jwtFromFile_spec_witness :
    jwtFromFile witnessFS "good.json" =
      .ok ⟨"service_account", "p1", "kid1", "PEM", "sa@p1.example", "123",
           "https://auth.example", "https://token.example",
           "https://certs.example", "https://client-certs.example"⟩ ∧
    isErr (jwtFromFile witnessFS "missing.json") = true ∧
    isErr (jwtFromFile witnessFS "bad.json") = true :=
  ⟨(jwtFromFile_spec witnessFS "good.json").1 _ _ _ _ _ _ _ _ _ _ rfl,
   (jwtFromFile_spec witnessFS "missing.json").2.1 rfl,
   (jwtFromFile_spec witnessFS "bad.json").2.2 rfl⟩

/-!
Mock provider for the end-to-end demonstration (claim C1). The provider
itself is an external service, out of scope of the repository; its
authorization behavior is taken from the specification.
-/

/-- State of the mocked provider: the IAM policy attached to the test topic,
the project-level IAM policy, and the subscriptions that exist. -/
structure MockProvider where
  topicPolicy : PubsubPolicy
  projectPolicy : CloudresPolicy
  subscriptions : List String
deriving Repr, DecidableEq

/-- Modelled from the spec: the provider authorizes subscription creation only
for an identity holding the project-wide pubsub.subscriber role in the project
IAM policy; a grant that is only topic-scoped (a binding in the topic policy)
does not authorize it. This is the provider-side rule the script exists to
demonstrate (spec section 1 and section 8, last bullet). -/
def providerAllowsSubscribe (st : MockProvider) (member : String) : Bool :=
  st.projectPolicy.bindings.any fun b =>
    b.role == roleResourcePre ++ (pubsubRolePre ++ "subscriber") &&
      b.members.contains member

/-- Modelled from the spec: createSubscription against the mocked provider.
When the calling identity is authorized the subscription is created and
returned (main.go lines 79-83 build the request from
subscriptionResourceName); otherwise the provider answers with the 403
forbidden error quoted at main.go line 367 and no subscription is created. -/
def mockCreateSubscription (st : MockProvider) (projectID member subName
    topicName : String) : Except GoError Subscription × MockProvider :=
  if providerAllowsSubscribe st member then
    (.ok ⟨subscriptionResourceName projectID subName, topicName⟩,
     { st with subscriptions := st.subscriptions ++ [subName] })
  else
    (.error .forbidden, st)

/-- grantPermissionOnTopic (main.go lines 186-195) against the mocked
provider: read the topic policy, merge the member with the pubsub-prefixed
role via addMemberToPubSubPolicy, write the policy back. -/
def mockGrantPermissionOnTopic (st : MockProvider) (sa : ServiceAccount)
    (role : String) : MockProvider :=
  { st with topicPolicy :=
      addMemberToPubSubPolicy st.topicPolicy sa (pubsubRolePre ++ role) }

/-- grantPermissionsOnTopic (main.go lines 197-205): loop over the roles. -/
def mockGrantPermissionsOnTopic (st : MockProvider) (sa : ServiceAccount)
    (roles : List String) : MockProvider :=
  roles.foldl (fun s r => mockGrantPermissionOnTopic s sa r) st

/-- grantProjectPermission (main.go lines 164-174) against the mocked
provider: read the project policy, merge the member via addMemberToPolicy,
write it back. -/
def mockGrantProjectPermission (st : MockProvider) (sa : ServiceAccount)
    (role : String) : MockProvider :=
  { st with projectPolicy := addMemberToPolicy st.projectPolicy sa role }

/-- grantProjectPermissions (main.go lines 176-184): loop over the roles. -/
def mockGrantProjectPermissions (st : MockProvider) (sa : ServiceAccount)
    (roles : List String) : MockProvider :=
  roles.foldl (fun s r => mockGrantProjectPermission s sa r) st

/-- The service account of the demonstration run. -/
def demoSA : ServiceAccount :=
  ⟨"projects/p1/serviceAccounts/test-sa@p1.example", "test-sa@p1.example",
   testServiceAccountName⟩

/-- The member string the merge functions write for demoSA. -/
def demoMember : String := saBindingPre ++ demoSA.email

/-- Provider state before any grant: empty topic and project policies, no
subscriptions. -/
def demoState0 : MockProvider := ⟨⟨[]⟩, ⟨[]⟩, []⟩

/-- State after the topic-scoped grant of main.go line 304:
grantPermissionsOnTopic with roles ["subscriber"]. -/
def demoState1 : MockProvider :=
  mockGrantPermissionsOnTopic demoState0 demoSA ["subscriber"]

/-- The first createSubscription attempt (main.go line 364), made as the new
identity while it holds only the topic-scoped grant. -/
def demoFirstAttempt : Except GoError Subscription × MockProvider :=
  mockCreateSubscription demoState1 "p1" demoMember testSubscriptionName
    "projects/p1/topics/test-topic"

/-- State after the project-wide grant of main.go line 392:
grantProjectPermissions with roles [pubsubRolePrefix + "subscriber"]. -/
def demoState2 : MockProvider :=
  mockGrantProjectPermissions demoFirstAttempt.2 demoSA
    [pubsubRolePre ++ "subscriber"]

/-- The second createSubscription attempt (main.go line 411), for
testSubscriptionName + "2", after the project-wide grant. -/
def demoSecondAttempt : Except GoError Subscription × MockProvider :=
  mockCreateSubscription demoState2 "p1" demoMember
    (testSubscriptionName ++ "2") "projects/p1/topics/test-topic"

/-- C1: in the demonstration run against the mocked provider, the first
createSubscription call fails with the authorization error and creates no
subscription; after grantProjectPermissions adds the project-wide
pubsub.subscriber role, the second call succeeds and returns the created
subscription. -/
theorem demoRun_subscribeFailsThenSucceeds :
    demoFirstAttempt.1 = .error .forbidden ∧
    demoFirstAttempt.2.subscriptions = [] ∧
    demoSecondAttempt.1 =
      .ok ⟨"projects/p1/subscriptions/test-sub2",
           "projects/p1/topics/test-topic"⟩ ∧
    demoSecondAttempt.2.subscriptions = ["test-sub2"] := by
  refine ⟨?_, ?_, ?_, ?_⟩ <;> rfl

/-!
Control-flow model of main (main.go lines 240-423), for the exit-behavior and
teardown claims. Logging is unobservable and is not modelled; results whose
only use in main is a log line are still quantified over so that the theorems
range over every combination of step errors.

Scope of the model. The authenticated clients and API service values (lines
258-274, 287-291, 338-348, 381-389) are represented only through the calls
made on them, under two identifications: a credential file the model reads as
a credentialDoc stands for one the authentication layer also accepts at line
258, and the key minted at line 310 is a valid credential, so that the
re-authentication at line 338 succeeds whenever the file it reads is intact.
The model does not represent the run in which a base64-decode or key-file
write failure leaves a corrupt or empty key file: in the source that run
makes the client construction at line 338 fail, newPubsubService stays nil,
and line 364 dereferences the nil service and panics, while here the decode
and write errors are merely recorded. The exit-code theorem therefore
restricts its exit-0 conclusion to runs in which the decode and the write
succeed; the teardown theorem needs no such restriction, because in a run
that panics at line 364 the subscription call never returns, so the
environment describing that run carries no successful subscription result,
and the deferred calls executed during unwinding are then exactly the ones
the theorem lists.
-/

/-- One teardown action, identified by the deferred call that performs it. -/
inductive TeardownAction where
  | delServiceAccount
  | delTopic
  | removeFile (path : String)
  | delSubscription (resource : String)
deriving Repr, DecidableEq

/-- How the process ends: fatalExit is log.Fatalf (os.Exit, deferred calls do
not run), panicked is a nil-pointer dereference (deferred calls registered so
far do run during unwinding), exitZero is the normal return from main. -/
inductive Outcome where
  | fatalExit
  | panicked
  | exitZero
deriving Repr, DecidableEq

/-- Observable result of one run: how the process ended, and the deferred
teardown calls that executed, in execution order. -/
structure RunTrace where
  outcome : Outcome
  teardown : List TeardownAction
deriving Repr, DecidableEq

/-- Everything main consumes from its environment and from the provider: the
credential path (empty string when the variable is unset, as os.Getenv
reports), the file system, and the result of each fallible provider step in
program order. Fields whose only use in main is a log line carry the error
option so the theorems quantify over them. -/
structure RunEnv where
  credsPath : String
  fs : String → Option FileContent
  saResult : Except GoError ServiceAccount
  topicResult : Except GoError Topic
  grantTopicErr : Option GoError
  keyResult : Except GoError SAKey
  decodeErr : Option GoError
  tempFileResult : Except GoError String
  writeErr : Option GoError
  setenvErr : Option GoError
  topicPermsResult : Except GoError (List String)
  sub1Result : Except GoError Subscription
  grantProjectErr : Option GoError
  projPermsResult : Except GoError (List String)
  sub2Result : Except GoError Subscription

/-- main (main.go lines 240-423) as a trace function. The teardown list is
kept as the defer stack, newest first, which is exactly the order the
deferred calls execute in. Nil results of failed creations are dereferenced
exactly where the Go code dereferences them, producing the panicked outcome
there. -/
def mainRun (env : RunEnv) : RunTrace :=
  -- line 245: empty credential path is the fatal precondition (246)
  if env.credsPath = "" then ⟨.fatalExit, []⟩
  else
    -- lines 250-253: a credential file that fails to load is also fatal
    match jwtFromFile env.fs env.credsPath with
    | .error _ => ⟨.fatalExit, []⟩
    | .ok jwt =>
      let projectID := jwt.projectID
      -- line 277: create the service account, error only logged (279)
      let saOpt := exceptToOption env.saResult
      -- line 283: defer deleteServiceAccount
      let d1 : List TeardownAction := [.delServiceAccount]
      -- line 294: create the topic, error only logged (296)
      let topicOpt := exceptToOption env.topicResult
      -- line 300: defer deleteTopic
      let d2 : List TeardownAction := .delTopic :: d1
      match topicOpt with
      | none =>
          -- line 304 calls grantPermissionsOnTopic, which dereferences
          -- topic.Name (line 187) on the nil topic
          ⟨.panicked, d2⟩
      | some _topic =>
        match saOpt with
        | none =>
            -- with the topic present, the nil service account is
            -- dereferenced at sa.Email (line 136) or sa.Name (line 310)
            ⟨.panicked, d2⟩
        | some _sa =>
          -- line 304-307: the grant result itself is only logged
          let _ := env.grantTopicErr
          -- line 310: create the key, error only logged (312)
          match exceptToOption env.keyResult with
          | none =>
              -- line 315 dereferences key.PrivateKeyData on the nil key
              ⟨.panicked, d2⟩
          | some _key =>
            -- lines 315-318: base64 decode, error only logged
            let _ := env.decodeErr
            -- line 321: create the temp file
            match env.tempFileResult with
            | .error _ =>
                -- line 325 evaluates file.Name() in the defer statement,
                -- dereferencing the nil file
                ⟨.panicked, d2⟩
            | .ok tmpPath =>
              -- line 325: defer os.Remove(file.Name())
              let d3 : List TeardownAction := .removeFile tmpPath :: d2
              -- lines 326-335: write and setenv errors only logged
              let _ := env.writeErr
              let _ := env.setenvErr
              -- lines 351-361: topic permission check result only logged
              let _ := env.topicPermsResult
              -- line 364: first subscription attempt
              let d4 : List TeardownAction :=
                match env.sub1Result with
                | .error _ => d3
                | .ok _ =>
                    -- line 372: defer deleteSubscription for test-sub
                    .delSubscription
                      (subscriptionResourceName projectID testSubscriptionName)
                      :: d3
              -- lines 392-397: project grant result only logged
              let _ := env.grantProjectErr
              -- lines 400-408: project permission check result only logged
              let _ := env.projPermsResult
              -- line 411: second subscription attempt
              let d5 : List TeardownAction :=
                match env.sub2Result with
                | .error _ => d4
                | .ok _ =>
                    -- line 417: defer deleteSubscription for test-sub2
                    .delSubscription
                      (subscriptionResourceName projectID
                        (testSubscriptionName ++ "2")) :: d4
              -- line 423: main returns, deferred calls run newest first
              ⟨.exitZero, d5⟩

/-- A run environment in which every step succeeds: credentials in good.json
on witnessFS, and every provider call answered positively. -/
def allOkEnv : RunEnv where
  credsPath := "good.json"
  fs := witnessFS
  saResult := .ok demoSA
  topicResult := .ok ⟨"projects/p1/topics/test-topic"⟩
  grantTopicErr := none
  keyResult := .ok ⟨"QkFTRTY0"⟩
  decodeErr := none
  tempFileResult := .ok "/tmp/key123"
  writeErr := none
  setenvErr := none
  topicPermsResult := .ok ["pubsub.topics.get"]
  sub1Result := .ok ⟨"projects/p1/subscriptions/test-sub",
    "projects/p1/topics/test-topic"⟩
  grantProjectErr := none
  projPermsResult := .ok ["pubsub.subscriptions.create"]
  sub2Result := .ok ⟨"projects/p1/subscriptions/test-sub2",
    "projects/p1/topics/test-topic"⟩

/-- allOkEnv with a file system on which the credential file is missing. -/
def missingCredsFileEnv : RunEnv := { allOkEnv with fs := fun _ => none }

/-- allOkEnv with a failed topic creation. -/
def failedTopicEnv : RunEnv := { allOkEnv with topicResult := .error .apiFailure }

/-- Counterexample to C2 as stated, refuting both of its parts at concrete
inputs: with the credential-path variable set (to good.json, a nonempty
value) but the credential file missing, the process still aborts, so the
unset variable is not the only abort condition; and with the variable and
file fine but the topic creation failing, the process dies in a nil-pointer
panic (line 304 dereferences the nil topic), a non-zero exit, so it is not
the case that every other error is merely logged with exit 0. -/
theorem mainRun_abortAndPanic_counterexample :
    ((mainRun missingCredsFileEnv).outcome = .fatalExit ∧
     missingCredsFileEnv.credsPath ≠ "") ∧
    ((mainRun failedTopicEnv).outcome = .panicked ∧
     Outcome.panicked ≠ Outcome.exitZero) := by
  exact ⟨⟨rfl, by decide⟩, ⟨rfl, by decide⟩⟩

/-- C2 amended: the run aborts through the fatal logger exactly when the
credential-path variable is empty or the credential file fails to load or
decode; a failed service-account, topic, key or temp-file creation instead
leaves a nil value whose later dereference ends the process in a runtime
panic, also a non-zero exit; and when those four creations succeed and the
key decode and key-file write also succeed, so that the re-authentication of
line 338 reads an intact key (see the scope note on the model above), the
errors of every remaining step, the grants, the permission checks and the
subscription creations, are only logged and the process exits 0. -/
theorem mainRun_exitBehavior (env : RunEnv) :
    ((mainRun env).outcome = Outcome.fatalExit ↔
      env.credsPath = "" ∨ isErr (jwtFromFile env.fs env.credsPath) = true) ∧
    (env.credsPath ≠ "" →
     isErr (jwtFromFile env.fs env.credsPath) = false →
     (isErr env.saResult = true ∨ isErr env.topicResult = true ∨
      isErr env.keyResult = true ∨ isErr env.tempFileResult = true) →
     (mainRun env).outcome = Outcome.panicked) ∧
    (env.credsPath ≠ "" →
     isErr (jwtFromFile env.fs env.credsPath) = false →
     isErr env.saResult = false →
     isErr env.topicResult = false →
     isErr env.keyResult = false →
     isErr env.tempFileResult = false →
     env.decodeErr = none →
     env.writeErr = none →
     (mainRun env).outcome = Outcome.exitZero) := by
  obtain ⟨creds, fs, sa, top, gte, key, de, tmp, we, se, tpr, s1, gpe, ppr, s2⟩ :=
    env
  by_cases hc : creds = ""
  · exact ⟨by simp [mainRun, hc], fun h => absurd hc h, fun h => absurd hc h⟩
  · cases hj : jwtFromFile fs creds with
    | error e =>
        refine ⟨by simp [mainRun, hc, hj, isErr], ?_, ?_⟩
        · intro _ h
          simp [isErr] at h
        · intro _ h
          simp [isErr] at h
    | ok j =>
        cases sa <;> cases top <;> cases key <;> cases tmp <;>
          cases s1 <;> cases s2 <;>
            simp [mainRun, hc, hj, isErr, exceptToOption]

/-- Witness for mainRun_exitBehavior: on the fully successful run every
hypothesis of the exit-0 clause holds and the process exits 0. -/
theorem mainRun_exitBehavior_witness :
    (mainRun allOkEnv).outcome = Outcome.exitZero :=
  (mainRun_exitBehavior allOkEnv).2.2 (by decide) rfl rfl rfl rfl rfl rfl rfl

/-- Counterexample to C3 as stated: in the fully successful run the temporary
key file is removed third, after the subscriptions but before the topic and
the service account, not last as the claim orders the teardown. -/
theorem mainRun_teardown_fileNotLast :
    (mainRun allOkEnv).teardown =
      [.delSubscription "projects/p1/subscriptions/test-sub2",
       .delSubscription "projects/p1/subscriptions/test-sub",
       .removeFile "/tmp/key123",
       .delTopic,
       .delServiceAccount] ∧
    ([.delSubscription "projects/p1/subscriptions/test-sub2",
      .delSubscription "projects/p1/subscriptions/test-sub",
      .removeFile "/tmp/key123",
      .delTopic,
      .delServiceAccount] : List TeardownAction) ≠
      [.delSubscription "projects/p1/subscriptions/test-sub2",
       .delSubscription "projects/p1/subscriptions/test-sub",
       .delTopic,
       .delServiceAccount,
       .removeFile "/tmp/key123"] := by
  exact ⟨rfl, by decide⟩

/-- C3 amended: whenever the run gets past its fatal preconditions and the
four creations succeed, the deferred teardown runs in reverse order of
creation: the second subscription, then the first (each only if it was
created), then the temporary key file, then the topic, then the service
account. -/
theorem mainRun_teardown_order (env : RunEnv) (j : JWT) (sa0 : ServiceAccount)
    (t0 : Topic) (k0 : SAKey) (tmp : String)
    (hc : ¬ env.credsPath = "")
    (hj : jwtFromFile env.fs env.credsPath = .ok j)
    (hsa : env.saResult = .ok sa0)
    (ht : env.topicResult = .ok t0)
    (hk : env.keyResult = .ok k0)
    (htmp : env.tempFileResult = .ok tmp) :
    (mainRun env).teardown =
      (match env.sub2Result with
        | .ok _ => [TeardownAction.delSubscription
            (subscriptionResourceName j.projectID (testSubscriptionName ++ "2"))]
        | .error _ => []) ++
      (match env.sub1Result with
        | .ok _ => [TeardownAction.delSubscription
            (subscriptionResourceName j.projectID testSubscriptionName)]
        | .error _ => []) ++
      [.removeFile tmp, .delTopic, .delServiceAccount] := by
  cases h1 : env.sub1Result <;> cases h2 : env.sub2Result <;>
    simp [mainRun, hc, hj, hsa, ht, hk, htmp, h1, h2, exceptToOption]

/-- Witness for mainRun_teardown_order on the fully successful run. -/
theorem mainRun_teardown_order_witness :
    (mainRun allOkEnv).teardown =
      [.delSubscription (subscriptionResourceName "p1"
          (testSubscriptionName ++ "2")),
       .delSubscription (subscriptionResourceName "p1" testSubscriptionName),
       .removeFile "/tmp/key123",
       .delTopic,
       .delServiceAccount] := by
  have h := mainRun_teardown_order allOkEnv
    ⟨"service_account", "p1", "kid1", "PEM", "sa@p1.example", "123",
     "https://auth.example", "https://token.example",
     "https://certs.example", "https://client-certs.example"⟩
    demoSA ⟨"projects/p1/topics/test-topic"⟩ ⟨"QkFTRTY0"⟩ "/tmp/key123"
    (by decide) rfl rfl rfl rfl rfl
  simpa using h

/-!
The deferred deletion calls of the teardown (claim C4). deleteTopic (main.go
lines 70-73) evaluates topic.Name and deleteServiceAccount (lines 103-106)
evaluates sa.Name before issuing the Delete request; on the nil pointer left
by a failed creation that evaluation is a nil-pointer dereference, a runtime
panic, not a returned error.
-/

/-- How one call into the provider ends: with the returned error value (nil
or not), or in a runtime panic before the request is even issued. -/
inductive CallOutcome where
  | panicked
  | returned (r : Except GoError Unit)
deriving Repr

/-- deleteTopic (main.go lines 70-73) on a possibly-nil topic: a nil topic
panics at topic.Name; otherwise the call returns whatever the provider
answers. -/
def deleteTopicCall (topic : Option Topic) (resp : Except GoError Unit) :
    CallOutcome :=
  match topic with
  | none => .panicked
  | some _ => .returned resp

/-- deleteServiceAccount (main.go lines 103-106) on a possibly-nil service
account: a nil account panics at sa.Name; otherwise the call returns the
provider answer. -/
def deleteServiceAccountCall (sa : Option ServiceAccount)
    (resp : Except GoError Unit) : CallOutcome :=
  match sa with
  | none => .panicked
  | some _ => .returned resp

/-- Counterexample to C4 as stated: invoked on the nil resource left by a
failed creation, the deferred deleteTopic and deleteServiceAccount calls do
crash instead of producing a logged deletion error. -/
theorem deleteCalls_crashOnNil :
    deleteTopicCall none (.ok ()) = .panicked ∧
    deleteServiceAccountCall none (.ok ()) = .panicked ∧
    ∀ r : Except GoError Unit, CallOutcome.panicked ≠ .returned r := by
  refine ⟨rfl, rfl, fun r => by simp⟩

/-- C4 amended: the deferred deleteTopic and deleteServiceAccount calls are
safe only on a resource that was actually created; on the nil resource left
by a failed creation they dereference the nil pointer and panic, while on a
created resource they at worst return the provider error, which the defer
statement discards. -/
theorem deleteCalls_nilBehavior (resp : Except GoError Unit) :
    deleteTopicCall none resp = .panicked ∧
    deleteServiceAccountCall none resp = .panicked ∧
    (∀ t : Topic, deleteTopicCall (some t) resp = .returned resp) ∧
    (∀ s : ServiceAccount,
      deleteServiceAccountCall (some s) resp = .returned resp) :=
  ⟨rfl, rfl, fun _ => rfl, fun _ => rfl⟩

/-!
The client wiring of the permission checks (claim C5). main builds two
authenticated clients: the original full-access one (line 258) and, after
writing the new key and pointing the credential variable at it, the
lesser-privileged one (line 338). Line 348 then constructs newTopicsService
from pubsubService, the service of the ORIGINAL client, not from
newPubsubService, and line 351 issues the topic permission check through it.
-/

/-- The two authenticated identities of the run. -/
inductive ClientIdentity where
  | fullAccess
  | limitedServiceAccount
deriving Repr, DecidableEq

/-- A pubsub.Service value, carrying the identity of the client it was built
from (pubsub.New, lines 287 and 344). -/
structure PubsubServiceHandle where
  client : ClientIdentity
deriving Repr, DecidableEq

/-- A pubsub.ProjectsTopicsService value, wrapping the service it was built
from (pubsub.NewProjectsTopicsService, lines 291 and 348). -/
structure TopicsServiceHandle where
  service : PubsubServiceHandle
deriving Repr, DecidableEq

/-- The client of line 258, built while the credential variable points at the
original full-access key. -/
def gcpClientW : ClientIdentity := .fullAccess

/-- pubsubService (line 287), built from gcpClient. -/
def pubsubServiceW : PubsubServiceHandle := ⟨gcpClientW⟩

/-- topicsService (line 291), built from pubsubService. -/
def topicsServiceW : TopicsServiceHandle := ⟨pubsubServiceW⟩

/-- newGCPClient (line 338), built after line 332 pointed the credential
variable at the freshly minted lesser-privileged key. -/
def newGCPClientW : ClientIdentity := .limitedServiceAccount

/-- newPubsubService (line 344), built from newGCPClient. -/
def newPubsubServiceW : PubsubServiceHandle := ⟨newGCPClientW⟩

/-- newTopicsService as line 348 actually constructs it: from pubsubService,
the service of the original client, not from newPubsubService. -/
def newTopicsServiceW : TopicsServiceHandle := ⟨pubsubServiceW⟩

/-- The identity the topic permission check of line 351 runs as:
getPermissionsOnTopic issues TestIamPermissions through the topics service it
is handed (main.go lines 234-238), which is newTopicsService. -/
def permissionCheckIdentity : ClientIdentity :=
  newTopicsServiceW.service.client

/-- C5 evaluated on the code: the topic permission check after the
re-authentication runs as the original full-access identity, not as the new
lesser-privileged identity the claim (and the surrounding code) intend,
because line 348 wraps pubsubService instead of newPubsubService. -/
theorem permissionCheck_usesOriginalClient :
    permissionCheckIdentity = .fullAccess ∧
    permissionCheckIdentity ≠ newPubsubServiceW.client := by
  exact ⟨rfl, by decide⟩
